import Mathlib

/-!
Shallow embedding of the custom-I/O bridge of `rust-ffmpeg`:
`src/format/context/stream_io.rs` (the `StreamIo` bridge, its callbacks
`read`, `write`, `seek`, the error translation `map_io_error`, the
constructor `new_impl` and the `Drop` impl) and
`src/format/context/destructor.rs` (the four-variant teardown policy).

Machine integers are modelled as `Int`/`Nat` with explicit wrapping where
the source casts (`as u64`, `as i64`, `as c_int`).  The native FFmpeg layer
(an external crate, `ffi`) is modelled abstractly: allocation primitives by
a success flag, and the teardown/allocation primitives by the trace of
calls the Rust code makes into them.
-/

namespace RustFFmpeg

/-! ### Native constants (from the external `ffi` crate / libc)

`AVERROR(e) = -e`; `AVERROR_EOF = FFERRTAG('E','O','F',' ')`;
`AVSEEK_SIZE = 0x10000`.  The errno values are the standard Linux ones. -/

def ENOMEM : Int := 12
def EINTR : Int := 4
def EAGAIN : Int := 11
def EIO : Int := 5
def EINVAL : Int := 22
def ENOSYS : Int := 38

def AVERROR (e : Int) : Int := -e

def AVERROR_EOF : Int := -541478725

def AVSEEK_SIZE : Int := 65536

/-- `BUFFER_SIZE` from `stream_io.rs`: the fixed native I/O buffer size. -/
def BUFFER_SIZE : Nat := 16384

/-! ### Integer casts appearing in the source -/

/-- `x as u64` / `x as usize` for a signed 64-bit (or sign-extended) value:
two's-complement wrap into `[0, 2^64)`. -/
def u64_wrap (x : Int) : Nat := (x % (2 ^ 64 : Int)).toNat

/-- `n as c_int` for an unsigned value `n` (usize → i32 truncating cast). -/
def i32_of_nat (n : Nat) : Int :=
  if n % 2 ^ 32 < 2 ^ 31 then ((n % 2 ^ 32 : Nat) : Int)
  else ((n % 2 ^ 32 : Nat) : Int) - 2 ^ 32

/-- `n as i64` for a `u64` value `n`: two's-complement reinterpretation. -/
def i64_of_u64 (n : Nat) : Int :=
  if n % 2 ^ 64 < 2 ^ 63 then ((n % 2 ^ 64 : Nat) : Int)
  else ((n % 2 ^ 64 : Nat) : Int) - 2 ^ 64

/-! ### Resource model

The calls the Rust code makes into the native layer (and the one host-side
release of the boxed stream) are recorded as an event trace, so that
teardown order, double frees and leaks are directly observable. -/

/-- One call into the native layer (or the boxed-stream release) made by
`new_impl`, `impl Drop for StreamIo` or `impl Drop for Destructor`.
The `Bool` on the two allocation events records whether the native
allocation succeeded (returned non-null). -/
inductive Event where
  | avMalloc (ok : Bool)
  | boxStream
  | avioAllocContext (ok : Bool)
  | dropBox
  | avFreep
  | avioContextFree
  | avformatCloseInput
  | avformatFreeContext
  | avioClose
deriving DecidableEq, Repr

/-- `Error::Other { errno }` from the crate's error type (the only variant
`new_impl` produces). -/
inductive Error where
  | other (errno : Int)
deriving DecidableEq, Repr

/-- The `StreamIo` bridge: `ptr` is the owned `*mut AVIOContext`
(`none` models a null pointer).  The `drop_opaque` function pointer is not
represented as data; its invocation is the `Event.dropBox` trace event. -/
structure StreamIo where
  ptr : Option Nat
deriving DecidableEq, Repr

/-- `impl Drop for StreamIo` (stream_io.rs:121-132) as the trace of calls it
makes: if `ptr` is non-null it reads `opaque`, then
`av_freep(&mut (*ptr).buffer)`, then `avio_context_free(&mut ptr)`, then
`(self.drop_opaque)(opaque)`; if `ptr` is null it does nothing. -/
def StreamIo.drop_trace (io : StreamIo) : List Event :=
  match io.ptr with
  | none => []
  | some _ => [.avFreep, .avioContextFree, .dropBox]

/-- Success flags of the two native allocations `new_impl` performs
(`av_malloc` for the buffer, `avio_alloc_context` for the context struct);
each is `true` iff the native call returns non-null. -/
structure NativeAlloc where
  malloc_ok : Bool
  avio_alloc_ok : Bool
deriving DecidableEq, Repr

/-- `StreamIo::new_impl` (stream_io.rs:73-109), resource behaviour.
The stream value and the three callback pointers do not affect which
resources are allocated or released, so they are not parameters here.
Returns the construction result together with the trace of
allocation/release calls made:
* `av_malloc(BUFFER_SIZE)`; on null, return `Error::Other { errno: ENOMEM }`;
* `Box::into_raw(Box::new(stream))` (event `boxStream`);
* `avio_alloc_context(...)`; on null, `drop(Box::from_raw(...))`
  (event `dropBox`) and return `Error::Other { errno: ENOMEM }`;
* otherwise return the bridge with a non-null `ptr`. -/
def new_impl (A : NativeAlloc) : Except Error StreamIo × List Event :=
  if !A.malloc_ok then
    (.error (.other ENOMEM), [.avMalloc false])
  else if !A.avio_alloc_ok then
    (.error (.other ENOMEM),
      [.avMalloc true, .boxStream, .avioAllocContext false, .dropBox])
  else
    (.ok { ptr := some 1 },
      [.avMalloc true, .boxStream, .avioAllocContext true])

/-- `Mode` from `destructor.rs`: the four-variant teardown policy. -/
inductive Mode where
  | input
  | output
  | inputCustomIo (io : StreamIo)
  | outputCustomIo (io : StreamIo)
deriving DecidableEq, Repr

/-- `impl Drop for Destructor` (destructor.rs:23-44) as the trace of native
calls made when the `Destructor` is dropped.  The `drop` body runs first
(the `match` on `self.mode`); afterwards the fields are dropped, so for the
two `CustomIo` variants the held `StreamIo`'s own drop trace follows. -/
def Destructor.drop_trace (m : Mode) : List Event :=
  match m with
  | .inputCustomIo io => .avformatCloseInput :: io.drop_trace
  | .outputCustomIo io => .avformatFreeContext :: io.drop_trace
  | .input => [.avformatCloseInput]
  | .output => [.avioClose, .avformatFreeContext]

/-! ### Host I/O error model and error translation -/

/-- The `std::io::ErrorKind` values distinguished by `map_io_error`, plus a
sample of the kinds its catch-all arm receives. -/
inductive ErrorKind where
  | unexpectedEof
  | interrupted
  | wouldBlock
  | timedOut
  | notFound
  | permissionDenied
  | brokenPipe
  | invalidInput
  | otherKind
deriving DecidableEq, Repr

/-- `map_io_error` (stream_io.rs:190-198): translate a host I/O failure
into a native status code. -/
def map_io_error (e : ErrorKind) : Int :=
  match e with
  | .unexpectedEof => AVERROR_EOF
  | .interrupted => AVERROR EINTR
  | .wouldBlock | .timedOut => AVERROR EAGAIN
  | _ => AVERROR EIO

/-! ### Host stream abstraction

The callbacks are generic over the stream type `T` with a `Read` / `Write` /
`Seek` bound; here each bound is a structure of state-passing operations on
a state type `σ`.  Each operation returns its `io::Result` together with the
stream state it leaves behind (a Rust `&mut self` method may mutate the
stream even when it fails). -/

/-- `SeekFrom` from `std::io`: the target of a positioning request.
`start` carries a `u64`, the other two an `i64`. -/
inductive SeekFrom where
  | start (n : Nat)
  | current (d : Int)
  | fromEnd (d : Int)
deriving DecidableEq, Repr

/-- A `Read` stream: `read s len` attempts to fill a buffer of length `len`,
returning `Ok(bytes read)` or an error, and the new stream state. -/
structure ReadStream (σ : Type) where
  read : σ → Nat → Except ErrorKind Nat × σ

/-- A `Write` stream: `write s buf` attempts to write `buf`, returning
`Ok(bytes accepted)` or an error, and the new stream state. -/
structure WriteStream (σ : Type) where
  write : σ → List (Fin 256) → Except ErrorKind Nat × σ

/-- A `Seek` stream: `seek s target` returns `Ok(resulting absolute
offset)` (a `u64`) or an error, and the new stream state. -/
structure SeekStream (σ : Type) where
  seek : σ → SeekFrom → Except ErrorKind Nat × σ

/-- `Seek::stream_position`, which the source calls in the size-query path:
defined by the standard library as `seek(SeekFrom::Current(0))`. -/
def stream_position {σ : Type} (S : SeekStream σ) (s : σ) :
    Except ErrorKind Nat × σ :=
  S.seek s (.current 0)

/-! ### The three callbacks (stream_io.rs:140-188) -/

/-- The `read` callback (stream_io.rs:140-148).  The native side passes a
buffer of `buf_size` bytes (`buf_size as usize` sign-extends the `c_int`);
the callback recovers the stream from `opaque` and calls `stream.read`:
`Ok(0)` becomes `AVERROR_EOF`, `Ok(n)` becomes `n as c_int`, `Err(e)`
becomes `map_io_error(e)`. -/
def read_cb {σ : Type} (R : ReadStream σ) (s : σ) (buf_size : Int) :
    Int × σ :=
  match R.read s (u64_wrap buf_size) with
  | (.ok 0, s') => (AVERROR_EOF, s')
  | (.ok n, s') => (i32_of_nat n, s')
  | (.error e, s') => (map_io_error e, s')

/-- The `write` callback (stream_io.rs:149-160).  The native buffer is read
only (`*const u8`); the callback calls `stream.write`: `Ok(n)` becomes
`n as c_int`, `Err(e)` becomes `map_io_error(e)`. -/
def write_cb {σ : Type} (W : WriteStream σ) (s : σ) (buf : List (Fin 256)) :
    Int × σ :=
  match W.write s buf with
  | (.ok n, s') => (i32_of_nat n, s')
  | (.error e, s') => (map_io_error e, s')

/-- The `seek` callback (stream_io.rs:161-188).
For `whence == AVSEEK_SIZE`: `stream_position().and_then(|cur| { let end =
seek(End(0))?; if cur != end { seek(Start(cur))?; } Ok(end) })`, returning
`end as i64` on success and `AVERROR(ENOSYS)` on any failure.
For `whence` 0/1/2: `Start(offset as u64)` / `Current(offset)` /
`End(offset)`, returning the resulting offset `as i64` on success and
`AVERROR(EIO)` on failure.  Any other `whence` returns `AVERROR(EINVAL)`
without touching the stream. -/
def seek_cb {σ : Type} (S : SeekStream σ) (s : σ) (offset : Int)
    (whence : Int) : Int × σ :=
  if whence = AVSEEK_SIZE then
    match stream_position S s with
    | (.error _, s1) => (AVERROR ENOSYS, s1)
    | (.ok cur, s1) =>
      match S.seek s1 (.fromEnd 0) with
      | (.error _, s2) => (AVERROR ENOSYS, s2)
      | (.ok ed, s2) =>
        if cur ≠ ed then
          match S.seek s2 (.start cur) with
          | (.error _, s3) => (AVERROR ENOSYS, s3)
          | (.ok _, s3) => (i64_of_u64 ed, s3)
        else (i64_of_u64 ed, s2)
  else
    match (if whence = 0 then some (SeekFrom.start (u64_wrap offset))
           else if whence = 1 then some (SeekFrom.current offset)
           else if whence = 2 then some (SeekFrom.fromEnd offset)
           else none) with
    | none => (AVERROR EINVAL, s)
    | some target =>
      match S.seek s target with
      | (.ok pos, s') => (i64_of_u64 pos, s')
      | (.error _, s') => (AVERROR EIO, s')

/-! ### Concrete host streams (test models, as in the spec's testable
properties: an in-memory byte cursor, a growable output sink, and a
scripted seeker whose answers are driven by a list). -/

/-- An in-memory readable/seekable stream over a fixed byte list, like
`std::io::Cursor<&[u8]>`: `pos` is the logical read position. -/
structure ByteCursor where
  data : List (Fin 256)
  pos : Nat
deriving DecidableEq, Repr

/-- `Read` for `ByteCursor`: reads `min len (remaining)` bytes and advances
by that amount; never fails (a read of 0 requested bytes, or at
end-of-data, returns `Ok(0)`). -/
def cursorRead : ReadStream ByteCursor :=
  ⟨fun c len =>
    let n := min len (c.data.length - c.pos)
    (.ok n, { c with pos := c.pos + n })⟩

/-- `Seek` for `ByteCursor`, like `std::io::Cursor`: the new position is
base + offset, failing with `InvalidInput` when that is negative; seeking
past the end is allowed. -/
def cursorSeek : SeekStream ByteCursor :=
  ⟨fun c target =>
    let want : Int :=
      match target with
      | .start n => (n : Int)
      | .current d => (c.pos : Int) + d
      | .fromEnd d => (c.data.length : Int) + d
    if want < 0 then (.error .invalidInput, c)
    else (.ok want.toNat, { c with pos := want.toNat })⟩

/-- A growable in-memory output sink, like `Vec<u8>` as `Write`: accepts
every buffer whole by appending it. -/
structure VecSink where
  data : List (Fin 256)
deriving DecidableEq, Repr

/-- `Write` for `VecSink`: always accepts all `buf.length` bytes. -/
def vecWrite : WriteStream VecSink :=
  ⟨fun v buf => (.ok buf.length, ⟨v.data ++ buf⟩)⟩

/-- A writable stream that always fails with a fixed error kind, for
exercising the write error path. -/
def failWrite (e : ErrorKind) : WriteStream Unit :=
  ⟨fun u _ => (.error e, u)⟩

/-- A seekable stream driven by a script: the state is the number of seek
calls made so far, and call `i` answers `script[i]` (failing with a generic
error past the end of the script).  Used to instrument the seek callback's
failure paths. -/
def scriptSeek (script : List (Except ErrorKind Nat)) : SeekStream Nat :=
  ⟨fun i _ => (script.getD i (.error .otherKind), i + 1)⟩

/-! ### Helper lemmas -/

/-- The `usize → c_int` cast is the identity below `2^31`. -/
theorem i32_of_nat_small (n : Nat) (h : n < 2 ^ 31) : i32_of_nat n = n := by
  unfold i32_of_nat
  have h32 : n % 2 ^ 32 = n := Nat.mod_eq_of_lt (lt_trans h (by norm_num))
  rw [h32, if_pos h]

/-- The `u64 → i64` cast is the identity below `2^63`. -/
theorem i64_of_u64_small (n : Nat) (h : n < 2 ^ 63) : i64_of_u64 n = n := by
  unfold i64_of_u64
  have h64 : n % 2 ^ 64 = n := Nat.mod_eq_of_lt (lt_trans h (by norm_num))
  rw [h64, if_pos h]

/-- Evaluation of the read callback on a successful underlying read. -/
theorem read_cb_ok {σ : Type} (R : ReadStream σ) (s s' : σ) (bs : Int)
    (n : Nat) (h : R.read s (u64_wrap bs) = (.ok n, s')) :
    read_cb R s bs = (if n = 0 then AVERROR_EOF else i32_of_nat n, s') := by
  unfold read_cb
  rw [h]
  cases n with
  | zero => simp
  | succ k => simp

/-- Evaluation of the read callback on a failing underlying read. -/
theorem read_cb_err {σ : Type} (R : ReadStream σ) (s s' : σ) (bs : Int)
    (e : ErrorKind) (h : R.read s (u64_wrap bs) = (.error e, s')) :
    read_cb R s bs = (map_io_error e, s') := by
  unfold read_cb
  rw [h]

/-- Evaluation of the write callback on a successful underlying write. -/
theorem write_cb_ok {σ : Type} (W : WriteStream σ) (s s' : σ)
    (buf : List (Fin 256)) (n : Nat) (h : W.write s buf = (.ok n, s')) :
    write_cb W s buf = (i32_of_nat n, s') := by
  unfold write_cb
  rw [h]

/-- Evaluation of the write callback on a failing underlying write. -/
theorem write_cb_err {σ : Type} (W : WriteStream σ) (s s' : σ)
    (buf : List (Fin 256)) (e : ErrorKind)
    (h : W.write s buf = (.error e, s')) :
    write_cb W s buf = (map_io_error e, s') := by
  unfold write_cb
  rw [h]

/-! ### Claims -/

/-- C1: dropping the owning `Destructor` in either bridged mode
(`InputCustomIo`, `OutputCustomIo`) never calls `avio_close`; the drop
body calls exactly the direction-appropriate free-context primitive
(`avformat_close_input` for input, `avformat_free_context` for output)
and the held `StreamIo`'s own teardown then runs; `avio_close` appears
only in the default `Output` mode's teardown. -/
theorem destructor_bridged_never_avio_close :
    ∀ io : StreamIo,
      Destructor.drop_trace (.inputCustomIo io) =
        .avformatCloseInput :: io.drop_trace ∧
      Destructor.drop_trace (.outputCustomIo io) =
        .avformatFreeContext :: io.drop_trace ∧
      Event.avioClose ∉ Destructor.drop_trace (.inputCustomIo io) ∧
      Event.avioClose ∉ Destructor.drop_trace (.outputCustomIo io) ∧
      Event.avioClose ∉ Destructor.drop_trace .input ∧
      Event.avioClose ∈ Destructor.drop_trace .output := by
  intro io
  obtain ⟨p⟩ := io
  cases p <;>
    refine ⟨rfl, rfl, ?_, ?_, by decide, by decide⟩ <;>
      simp [Destructor.drop_trace, StreamIo.drop_trace]

/-- C2: dropping a `StreamIo` whose native pointer is non-null produces
exactly the trace free-buffer, free-context-struct, release-boxed-stream
(in that order, each exactly once); dropping one whose pointer is null
produces the empty trace. -/
theorem streamio_drop_exact_order :
    ∀ io : StreamIo,
      (∀ n : Nat, io.ptr = some n →
        io.drop_trace = [.avFreep, .avioContextFree, .dropBox] ∧
        io.drop_trace.count .avFreep = 1 ∧
        io.drop_trace.count .avioContextFree = 1 ∧
        io.drop_trace.count .dropBox = 1) ∧
      (io.ptr = none → io.drop_trace = []) := by
  intro io
  obtain ⟨p⟩ := io
  cases p with
  | none =>
    exact ⟨fun n h => by simp at h, fun _ => rfl⟩
  | some k =>
    refine ⟨fun n _ => ⟨rfl, ?_, ?_, ?_⟩, fun h => by simp at h⟩ <;>
      simp [StreamIo.drop_trace]

/-- C2 witness: the two pointer states, evaluated concretely. -/
theorem streamio_drop_exact_order_witness :
    (StreamIo.mk (some 1)).drop_trace =
      [.avFreep, .avioContextFree, .dropBox] ∧
    (StreamIo.mk none).drop_trace = [] :=
  ⟨((streamio_drop_exact_order ⟨some 1⟩).1 1 rfl).1,
   (streamio_drop_exact_order ⟨none⟩).2 rfl⟩

/-- C3: at the failing input where the buffer allocation succeeds but the
native context allocation fails, `new_impl` returns `ENOMEM` and releases
the boxed stream exactly once — but the buffer obtained from `av_malloc`
is never freed (no successful `avio_alloc_context` adopted it and no
`av_freep`/`av_free` call appears in the trace), so a resource allocated
before the failure point is leaked. -/
theorem new_impl_ctx_alloc_failure_leaks_buffer :
    (new_impl ⟨true, false⟩).1 = .error (.other ENOMEM) ∧
    (new_impl ⟨true, false⟩).2.count .boxStream = 1 ∧
    (new_impl ⟨true, false⟩).2.count .dropBox = 1 ∧
    Event.avMalloc true ∈ (new_impl ⟨true, false⟩).2 ∧
    Event.avioAllocContext true ∉ (new_impl ⟨true, false⟩).2 ∧
    Event.avFreep ∉ (new_impl ⟨true, false⟩).2 := by
  refine ⟨rfl, by decide, by decide, by decide, by decide, by decide⟩

/-- C4: for every readable stream, an underlying read of zero bytes makes
the read callback return `AVERROR_EOF` (never zero interpreted as a
length), and an underlying read of `n > 0` bytes makes it return `n`; on
the in-memory cursor, a request whose effective length `m` is at most the
`N` remaining bytes returns `m` and advances the position by exactly `m`
(a partial read is a count, not an error), and a request with 0 bytes
remaining returns the EOF sentinel. -/
theorem read_cb_eof_and_partial_counts :
    (∀ (σ : Type) (R : ReadStream σ) (s s' : σ) (bs : Int),
        R.read s (u64_wrap bs) = (.ok 0, s') →
        read_cb R s bs = (AVERROR_EOF, s')) ∧
    (∀ (σ : Type) (R : ReadStream σ) (s s' : σ) (bs : Int) (n : Nat),
        R.read s (u64_wrap bs) = (.ok n, s') → 0 < n → n < 2 ^ 31 →
        read_cb R s bs = ((n : Int), s')) ∧
    (∀ (c : ByteCursor) (len : Int) (m : Nat),
        m = u64_wrap len → 0 < m → m < 2 ^ 31 →
        m ≤ c.data.length - c.pos →
        read_cb cursorRead c len = ((m : Int), { c with pos := c.pos + m })) ∧
    (∀ (c : ByteCursor) (len : Int), c.data.length ≤ c.pos →
        read_cb cursorRead c len = (AVERROR_EOF, c)) := by
  refine ⟨?_, ?_, ?_, ?_⟩
  · intro σ R s s' bs h
    simpa using read_cb_ok R s s' bs 0 h
  · intro σ R s s' bs n h hpos hlt
    have := read_cb_ok R s s' bs n h
    rw [if_neg (Nat.pos_iff_ne_zero.mp hpos), i32_of_nat_small n hlt] at this
    exact this
  · intro c len m hm hpos hlt hle
    have h : cursorRead.read c (u64_wrap len) =
        (.ok m, { c with pos := c.pos + m }) := by
      simp [cursorRead, ← hm, Nat.min_eq_left hle]
    have := read_cb_ok cursorRead c _ len m h
    rw [if_neg (Nat.pos_iff_ne_zero.mp hpos), i32_of_nat_small m hlt] at this
    exact this
  · intro c len h
    have h0 : cursorRead.read c (u64_wrap len) = (.ok 0, c) := by
      simp [cursorRead, Nat.sub_eq_zero_of_le h]
    simpa using read_cb_ok cursorRead c c len 0 h0

/-- C4 witness: a cursor holding 3 bytes, read request of 2, returns 2 and
advances to position 2. -/
theorem read_cb_eof_and_partial_counts_witness :
    read_cb cursorRead ⟨[0, 1, 2], 0⟩ 2 = (2, ⟨[0, 1, 2], 2⟩) := by
  have h := read_cb_eof_and_partial_counts.2.2.1 ⟨[0, 1, 2], 0⟩ 2 2
    rfl (by decide) (by decide) (by decide)
  exact h

/-- C5: `map_io_error` realizes exactly the spec's translation table —
unexpected end of stream to the EOF sentinel, interrupted to
`AVERROR(EINTR)`, would-block and timed-out to `AVERROR(EAGAIN)`, and
every other kind to `AVERROR(EIO)` — and the read and write callbacks
return exactly this translation whenever the underlying operation fails. -/
theorem map_io_error_matches_table :
    map_io_error .unexpectedEof = AVERROR_EOF ∧
    map_io_error .interrupted = AVERROR EINTR ∧
    map_io_error .wouldBlock = AVERROR EAGAIN ∧
    map_io_error .timedOut = AVERROR EAGAIN ∧
    (∀ e : ErrorKind, e ≠ .unexpectedEof → e ≠ .interrupted →
        e ≠ .wouldBlock → e ≠ .timedOut → map_io_error e = AVERROR EIO) ∧
    (∀ (σ : Type) (R : ReadStream σ) (s s' : σ) (bs : Int) (e : ErrorKind),
        R.read s (u64_wrap bs) = (.error e, s') →
        read_cb R s bs = (map_io_error e, s')) ∧
    (∀ (σ : Type) (W : WriteStream σ) (s s' : σ) (buf : List (Fin 256))
        (e : ErrorKind), W.write s buf = (.error e, s') →
        write_cb W s buf = (map_io_error e, s')) := by
  refine ⟨rfl, rfl, rfl, rfl, ?_, ?_, ?_⟩
  · intro e h1 h2 h3 h4
    cases e <;> simp_all [map_io_error]
  · intro σ R s s' bs e h
    exact read_cb_err R s s' bs e h
  · intro σ W s s' buf e h
    exact write_cb_err W s s' buf e h

/-- C5 witness: the catch-all row at a concrete kind, and the write
callback surfacing the translation of a concrete failure. -/
theorem map_io_error_matches_table_witness :
    map_io_error .notFound = AVERROR EIO ∧
    write_cb (failWrite .interrupted) () [] = (AVERROR EINTR, ()) :=
  ⟨map_io_error_matches_table.2.2.2.2.1 .notFound
      (by decide) (by decide) (by decide) (by decide),
   map_io_error_matches_table.2.2.2.2.2.2 Unit (failWrite .interrupted)
      () () [] .interrupted rfl⟩

/-- C7: for every writable stream, when the underlying write accepts `n`
bytes the write callback returns `n`, and when it fails the callback
returns exactly the translated error code with the stream left in its own
post-write state (no other effect); the growable sink accepts every
`K`-byte buffer whole, so writing `K` bytes returns `K` and appends
exactly those bytes. -/
theorem write_cb_accepted_count :
    (∀ (σ : Type) (W : WriteStream σ) (s s' : σ) (buf : List (Fin 256))
        (n : Nat), W.write s buf = (.ok n, s') → n < 2 ^ 31 →
        write_cb W s buf = ((n : Int), s')) ∧
    (∀ (σ : Type) (W : WriteStream σ) (s s' : σ) (buf : List (Fin 256))
        (e : ErrorKind), W.write s buf = (.error e, s') →
        write_cb W s buf = (map_io_error e, s')) ∧
    (∀ (v : VecSink) (buf : List (Fin 256)), buf.length < 2 ^ 31 →
        write_cb vecWrite v buf = ((buf.length : Int), ⟨v.data ++ buf⟩)) := by
  refine ⟨?_, ?_, ?_⟩
  · intro σ W s s' buf n h hlt
    rw [write_cb_ok W s s' buf n h, i32_of_nat_small n hlt]
  · intro σ W s s' buf e h
    exact write_cb_err W s s' buf e h
  · intro v buf hlt
    have h : vecWrite.write v buf = (.ok buf.length, ⟨v.data ++ buf⟩) := rfl
    rw [write_cb_ok vecWrite v _ buf buf.length h,
      i32_of_nat_small buf.length hlt]

/-- C7 witness: writing 2 bytes to the growable sink returns 2 and appends
them. -/
theorem write_cb_accepted_count_witness :
    write_cb vecWrite ⟨[7]⟩ [5, 6] = (2, ⟨[7, 5, 6]⟩) := by
  have h := write_cb_accepted_count.2.2 ⟨[7]⟩ [5, 6] (by decide)
  exact h

/-- C10: the read callback translates any underlying `Ok(0)` to
`AVERROR_EOF` regardless of whether end-of-stream was actually reached; in
particular a request of length 0 against the in-memory cursor returns the
EOF sentinel (not 0) even with bytes remaining, and `AVERROR_EOF` is not
the byte count 0. -/
theorem read_cb_zero_request_is_eof :
    (∀ (σ : Type) (R : ReadStream σ) (s s' : σ) (bs : Int),
        R.read s (u64_wrap bs) = (.ok 0, s') →
        read_cb R s bs = (AVERROR_EOF, s')) ∧
    (∀ c : ByteCursor, read_cb cursorRead c 0 = (AVERROR_EOF, c)) ∧
    AVERROR_EOF ≠ 0 := by
  refine ⟨?_, ?_, by decide⟩
  · intro σ R s s' bs h
    simpa using read_cb_ok R s s' bs 0 h
  · intro c
    have h0 : cursorRead.read c (u64_wrap 0) = (.ok 0, c) := by
      simp [cursorRead, u64_wrap]
    simpa using read_cb_ok cursorRead c c 0 0 h0

/-- C10 witness: length-0 read at position 1 of a 2-byte cursor (1 byte
remaining) reports EOF, not 0. -/
theorem read_cb_zero_request_is_eof_witness :
    read_cb cursorRead ⟨[0, 1], 1⟩ 0 = (AVERROR_EOF, ⟨[0, 1], 1⟩) :=
  read_cb_zero_request_is_eof.2.1 ⟨[0, 1], 1⟩

/-- C6: on any seekable stream whose positioning operations succeed and
report positions lawfully (`stream_position` returns the current position
without moving it, seeking resolves to the returned absolute offset), the
size-query branch of the seek callback returns the end offset (the total
size) and leaves the logical position unchanged: the position after the
query equals the position before it, the recorded position being restored
whenever it differs from the end. -/
theorem seek_cb_size_query_roundtrip (σ : Type) (S : SeekStream σ)
    (pos : σ → Nat) (s s1 s2 s3 : σ) (p e q : Nat) (off : Int)
    (hp : pos s = p)
    (h1 : S.seek s (.current 0) = (.ok p, s1))
    (h2 : S.seek s1 (.fromEnd 0) = (.ok e, s2)) (h2p : pos s2 = e)
    (h3 : S.seek s2 (.start p) = (.ok q, s3)) (h3p : pos s3 = p)
    (he : e < 2 ^ 63) :
    (seek_cb S s off AVSEEK_SIZE).1 = (e : Int) ∧
    pos (seek_cb S s off AVSEEK_SIZE).2 = pos s := by
  have hcb : seek_cb S s off AVSEEK_SIZE =
      if p ≠ e then ((e : Int), s3) else ((e : Int), s2) := by
    unfold seek_cb stream_position
    rw [if_pos rfl, h1]
    simp only [h2, h3, i64_of_u64_small e he]
  rw [hcb]
  by_cases hpe : p = e
  · rw [if_neg (by simp [hpe])]
    simp [hp, h2p, hpe]
  · rw [if_pos hpe]
    simp [hp, h3p]

/-- C6 witness: a 4-byte cursor at position 1; the size query returns 4
and the position is back at 1. -/
theorem seek_cb_size_query_roundtrip_witness :
    (seek_cb cursorSeek ⟨[0, 0, 0, 0], 1⟩ 0 AVSEEK_SIZE).1 = 4 ∧
    (seek_cb cursorSeek ⟨[0, 0, 0, 0], 1⟩ 0 AVSEEK_SIZE).2.pos = 1 := by
  have h := seek_cb_size_query_roundtrip ByteCursor cursorSeek ByteCursor.pos
    ⟨[0, 0, 0, 0], 1⟩ ⟨[0, 0, 0, 0], 1⟩ ⟨[0, 0, 0, 0], 4⟩ ⟨[0, 0, 0, 0], 1⟩
    1 4 1 0 rfl rfl rfl rfl rfl rfl (by decide)
  exact ⟨h.1, h.2⟩

/-- C8: whenever any step of the size-query path fails — reading the
current position, seeking to the end, or restoring the recorded position
after a successful size probe — the seek callback returns
`AVERROR(ENOSYS)` (operation not supported), which is distinct from the
generic I/O error `AVERROR(EIO)`. -/
theorem seek_cb_size_failure_not_supported (σ : Type) (S : SeekStream σ)
    (s : σ) (off : Int) :
    (∀ e1 s1, S.seek s (.current 0) = (.error e1, s1) →
        seek_cb S s off AVSEEK_SIZE = (AVERROR ENOSYS, s1)) ∧
    (∀ p s1 e2 s2, S.seek s (.current 0) = (.ok p, s1) →
        S.seek s1 (.fromEnd 0) = (.error e2, s2) →
        seek_cb S s off AVSEEK_SIZE = (AVERROR ENOSYS, s2)) ∧
    (∀ p s1 e s2 e3 s3, S.seek s (.current 0) = (.ok p, s1) →
        S.seek s1 (.fromEnd 0) = (.ok e, s2) → p ≠ e →
        S.seek s2 (.start p) = (.error e3, s3) →
        seek_cb S s off AVSEEK_SIZE = (AVERROR ENOSYS, s3)) ∧
    AVERROR ENOSYS ≠ AVERROR EIO := by
  refine ⟨?_, ?_, ?_, by decide⟩
  · intro e1 s1 h
    unfold seek_cb stream_position
    rw [if_pos rfl, h]
  · intro p s1 e2 s2 h1 h2
    unfold seek_cb stream_position
    rw [if_pos rfl, h1]
    simp only [h2]
  · intro p s1 e s2 e3 s3 h1 h2 hne h3
    unfold seek_cb stream_position
    rw [if_pos rfl, h1]
    simp only [h2, h3, if_pos hne]

/-- C8 witness: scripted seekers failing at each of the three steps all
yield `AVERROR(ENOSYS)` — including the one whose restore step fails after
the size probe succeeded. -/
theorem seek_cb_size_failure_not_supported_witness :
    (seek_cb (scriptSeek []) 0 7 AVSEEK_SIZE).1 = AVERROR ENOSYS ∧
    (seek_cb (scriptSeek [.ok 1, .error .otherKind]) 0 7
      AVSEEK_SIZE).1 = AVERROR ENOSYS ∧
    (seek_cb (scriptSeek [.ok 1, .ok 5, .error .otherKind]) 0 7
      AVSEEK_SIZE).1 = AVERROR ENOSYS := by
  refine ⟨?_, ?_, ?_⟩
  · rw [(seek_cb_size_failure_not_supported Nat (scriptSeek []) 0 7).1
      .otherKind 1 rfl]
  · rw [(seek_cb_size_failure_not_supported Nat
      (scriptSeek [.ok 1, .error .otherKind]) 0 7).2.1
      1 1 .otherKind 2 rfl rfl]
  · rw [(seek_cb_size_failure_not_supported Nat
      (scriptSeek [.ok 1, .ok 5, .error .otherKind]) 0 7).2.2.1
      1 1 5 2 .otherKind 3 rfl rfl (by decide) rfl]

/-- C9: for every whence value other than 0 (from-start), 1
(from-current), 2 (from-end) and the `AVSEEK_SIZE` sentinel, the seek
callback returns `AVERROR(EINVAL)` and leaves the stream state untouched
— on the scripted seeker the call counter is unchanged, so no operation
was invoked on the underlying stream. -/
theorem seek_cb_invalid_whence_einval (off whence : Int) (h0 : whence ≠ 0)
    (h1 : whence ≠ 1) (h2 : whence ≠ 2) (hs : whence ≠ AVSEEK_SIZE) :
    (∀ (σ : Type) (S : SeekStream σ) (s : σ),
        seek_cb S s off whence = (AVERROR EINVAL, s)) ∧
    (∀ (script : List (Except ErrorKind Nat)) (calls : Nat),
        seek_cb (scriptSeek script) calls off whence =
          (AVERROR EINVAL, calls)) := by
  have base : ∀ (σ : Type) (S : SeekStream σ) (s : σ),
      seek_cb S s off whence = (AVERROR EINVAL, s) := by
    intro σ S s
    unfold seek_cb
    rw [if_neg hs, if_neg h0, if_neg h1, if_neg h2]
  exact ⟨base, fun script calls => base Nat (scriptSeek script) calls⟩

/-- C9 witness: whence value 3 on a scripted seeker returns
`AVERROR(EINVAL)` with the call counter unchanged. -/
theorem seek_cb_invalid_whence_einval_witness :
    seek_cb (scriptSeek [.ok 1]) 0 5 3 = (AVERROR EINVAL, 0) :=
  (seek_cb_invalid_whence_einval 5 3
    (by decide) (by decide) (by decide) (by decide)).2 [.ok 1] 0

end RustFFmpeg
